import Mathlib

/-!
Shallow embedding of `src/app.py`, a Flask SMS relay over one database
table.  The database is modelled as a `List MessageRow` in insertion
order; `id` is auto-assigned as in SQLAlchemy (one more than the current
row count for a fresh table).  Datetimes are UTC seconds since the Unix
epoch (`Nat`); `strftime "%Y-%m-%d %H:%M:%S"` is implemented over that
representation.  HTTP request form/JSON fields that may be absent are
`Option String` (Python `None` ↔ `none`); Python truthiness of such a
value (`not x`) is `otruthy`.
-/

/-- One row of the `Message` table (`class Message(db.Model)` in app.py).
`sid` is the provider identifier (nullable), `timestamp` is `created_at`. -/
structure MessageRow where
  id : Nat
  sid : Option String
  from_number : Option String
  to_number : Option String
  body : Option String
  direction : String
  status : Option String
  error_code : Option String
  timestamp : Nat
deriving Repr, DecidableEq

/-- Python truthiness of an optional string: `None` and `""` are falsy. -/
def otruthy : Option String → Bool
  | none => false
  | some s => s ≠ ""

/-- Python `a or b` on optional strings: yields `a` when `a` is truthy,
otherwise `b`. -/
def pyOr (a b : Option String) : Option String :=
  if otruthy a then a else b

/-- The JSON body of a `/send-sms` request after `request.get_json`:
`data.get("to")` and `data.get("message")`. -/
structure SendRequest where
  «to» : Option String
  message : Option String
deriving Repr, DecidableEq

/-- What `client.messages.create(...)` returns: the fields of the Twilio
message resource that `send_sms` reads (`message.sid`, `message.status`). -/
structure ProviderResult where
  sid : String
  status : String
deriving Repr, DecidableEq

/-- Result of one `/send-sms` request: the database after the request, the
HTTP status code, the response-body fields, and whether the outbound
provider call (`client.messages.create`) was made. -/
structure SendOutcome where
  db : List MessageRow
  code : Nat
  respStatus : Option String
  respSid : Option String
  respError : Option String
  providerCalled : Bool
deriving Repr, DecidableEq

/-- `send_sms` (app.py lines 53-79).  `provider` is the external call
`client.messages.create` (a function of the `to` and `body` arguments;
the callback URL does not affect the stored row), `fromNumber` is
`TWILIO_NUMBER`, `now` is `datetime.utcnow` at insert time. -/
def send_sms (provider : String → String → ProviderResult) (fromNumber : String)
    (now : Nat) (db : List MessageRow) (req : SendRequest) : SendOutcome :=
  let toV := req.«to»
  let body := req.message
  if !otruthy toV || !otruthy body then
    { db := db, code := 400, respStatus := none, respSid := none,
      respError := some "missing 'to' or 'message'", providerCalled := false }
  else
    let toS := toV.getD ""
    let bodyS := body.getD ""
    let message := provider toS bodyS
    let db_msg : MessageRow :=
      { id := db.length + 1, sid := some message.sid,
        from_number := some fromNumber, to_number := some toS,
        body := some bodyS, direction := "outbound",
        status := some message.status, error_code := none, timestamp := now }
    { db := db ++ [db_msg], code := 200, respStatus := some "queued",
      respSid := some message.sid, respError := none, providerCalled := true }

/-- Outcome of parsing the `Payload` form field in `receive_sms`:
`json.loads` plus the navigation
`payload_data.get("webhook", {}).get("request", {}).get("parameters", {})`.
`malformed` is the `except` branch (invalid JSON, or a non-dict level that
makes a `.get` raise); `parsed ps` gives the `parameters` dictionary that
the navigation produced (empty when any level is a missing key). -/
inductive PayloadParse where
  | malformed
  | parsed (params : List (String × String))
deriving Repr, DecidableEq

/-- `dict.get k` on the parsed `parameters` dictionary. -/
def lookupParam (ps : List (String × String)) (k : String) : Option String :=
  (ps.find? (fun p => p.1 == k)).map (fun p => p.2)

/-- A `/receive-sms` request: `payload` is `request.form.get("Payload")`
(`none` when the field is absent or empty, i.e. Python-falsy, so the parse
is skipped); the `form*` fields are `request.form.get` of `From`, `To`,
`Body`, and `SmsBody`.  `formSmsBody` is carried to state properties about
flat `SmsBody` input even though `receive_sms` never reads it. -/
structure InboundRequest where
  payload : Option PayloadParse
  formFrom : Option String
  formTo : Option String
  formBody : Option String
  formSmsBody : Option String
deriving Repr, DecidableEq

/-- The `From`/`To`/`Body` values extracted from the nested payload
(app.py lines 89-97): `none, none, none` when the payload is absent or
parsing raised; otherwise `msg_data.get("From")`, `msg_data.get("To")`,
and `msg_data.get("Body") or msg_data.get("SmsBody")`. -/
def nestedFields (req : InboundRequest) : Option String × Option String × Option String :=
  match req.payload with
  | none => (none, none, none)
  | some PayloadParse.malformed => (none, none, none)
  | some (PayloadParse.parsed ps) =>
      (lookupParam ps "From", lookupParam ps "To",
       pyOr (lookupParam ps "Body") (lookupParam ps "SmsBody"))

/-- The fixed TwiML acknowledgement `str(MessagingResponse().message(...))`. -/
def ackReply : String :=
  "<?xml version=\"1.0\" encoding=\"UTF-8\"?><Response><Message>✅ Thanks — we received your message.</Message></Response>"

/-- Result of one `/receive-sms` request. -/
structure ReceiveOutcome where
  db : List MessageRow
  code : Nat
  reply : String
deriving Repr, DecidableEq

/-- The row `receive_sms` inserts for a given request. -/
def inboundRow (now : Nat) (db : List MessageRow) (req : InboundRequest) : MessageRow :=
  let nested := nestedFields req
  let from_number := if otruthy nested.1 then nested.1 else req.formFrom
  let to_number := if otruthy nested.2.1 then nested.2.1 else req.formTo
  let body := if otruthy nested.2.2 then nested.2.2 else req.formBody
  { id := db.length + 1, sid := none,
    from_number := from_number, to_number := to_number, body := body,
    direction := "inbound", status := some "received", error_code := none,
    timestamp := now }

/-- `receive_sms` (app.py lines 82-126): extract fields (nested payload
first, flat form fields as fallback for each falsy result), insert one
inbound row, return the fixed TwiML reply with HTTP 200. -/
def receive_sms (now : Nat) (db : List MessageRow) (req : InboundRequest) :
    ReceiveOutcome :=
  { db := db ++ [inboundRow now db req], code := 200, reply := ackReply }

/-- A `/sms/status` request: `request.form.get` of `MessageSid`,
`MessageStatus`, `ErrorCode`. -/
structure StatusRequest where
  messageSid : Option String
  messageStatus : Option String
  errorCode : Option String
deriving Repr, DecidableEq

/-- `Message.query.filter_by(sid=sid).first()` followed by the in-place
update: rewrite the first row whose `sid` equals the given value.
SQLAlchemy renders `filter_by(sid=None)` as `sid IS NULL`, so `Option`
equality (where `none = none`) is the faithful embedding: a request with
no `MessageSid` matches rows whose `sid` is NULL. -/
def updateFirst (sid status errc : Option String) :
    List MessageRow → List MessageRow
  | [] => []
  | m :: rest =>
    if m.sid = sid then { m with status := status, error_code := errc } :: rest
    else m :: updateFirst sid status errc rest

/-- `status_callback` (app.py lines 130-143): update the first row whose
`sid` matches (no-op when none does), always answer an empty 204. -/
def status_callback (db : List MessageRow) (req : StatusRequest) :
    List MessageRow × Nat :=
  (updateFirst req.messageSid req.messageStatus req.errorCode db, 204)

/-- Zero-pad a number to two digits, as `strftime` does for `%m %d %H %M %S`. -/
def pad2 (n : Nat) : String :=
  if n < 10 then "0" ++ toString n else toString n

/-- Civil date (year, month, day) from days since 1970-01-01 (proleptic
Gregorian), the standard era-based conversion. -/
def civilFromDays (z0 : Nat) : Nat × Nat × Nat :=
  let z := z0 + 719468
  let era := z / 146097
  let doe := z % 146097
  let yoe := (doe - doe / 1460 + doe / 36524 - doe / 146096) / 365
  let y := yoe + era * 400
  let doy := doe - (365 * yoe + yoe / 4 - yoe / 100)
  let mp := (5 * doy + 2) / 153
  let d := doy - (153 * mp + 2) / 5 + 1
  let m := if mp < 10 then mp + 3 else mp - 9
  (if m ≤ 2 then y + 1 else y, m, d)

/-- `timestamp.strftime("%Y-%m-%d %H:%M:%S")` on a UTC datetime given as
seconds since the Unix epoch. -/
def strftimeYmdHMS (t : Nat) : String :=
  let days := t / 86400
  let secs := t % 86400
  let c := civilFromDays days
  toString c.1 ++ "-" ++ pad2 c.2.1 ++ "-" ++ pad2 c.2.2 ++ " " ++
    pad2 (secs / 3600) ++ ":" ++ pad2 (secs % 3600 / 60) ++ ":" ++ pad2 (secs % 60)

/-- One element of the JSON array returned by `/messages`. -/
structure SerializedMessage where
  id : Nat
  sid : Option String
  from_number : Option String
  to_number : Option String
  body : Option String
  direction : String
  status : Option String
  error_code : Option String
  timestamp : String
deriving Repr, DecidableEq

/-- The dictionary built for one row in `get_all_messages`. -/
def serialize (m : MessageRow) : SerializedMessage :=
  { id := m.id, sid := m.sid, from_number := m.from_number,
    to_number := m.to_number, body := m.body, direction := m.direction,
    status := m.status, error_code := m.error_code,
    timestamp := strftimeYmdHMS m.timestamp }

/-- The comparison behind `order_by(Message.timestamp.desc())`:
`a` may precede `b` when its timestamp is at least `b`'s. -/
def tsDesc (a b : MessageRow) : Bool :=
  b.timestamp ≤ a.timestamp

/-- `get_all_messages` (app.py lines 146-162): all rows ordered by
`timestamp` descending (ties in an order the storage layer does not
specify; a sort over insertion order models this), each serialized, with
HTTP 200. -/
def get_all_messages (db : List MessageRow) : List SerializedMessage × Nat :=
  ((db.mergeSort tsDesc).map serialize, 200)

example : strftimeYmdHMS 0 = "1970-01-01 00:00:00" := by rfl

example : strftimeYmdHMS 1760227199 = "2025-10-11 23:59:59" := by rfl
section SendClaims

/-- C1: for every valid request to send (both fields non-empty strings),
exactly one new row is inserted, with direction "outbound", to_number and
body equal to the inputs, sid the provider-returned identifier, and status
the provider-returned status. -/
theorem C1_send_inserts_one_outbound_row
    (provider : String → String → ProviderResult) (fromNumber : String)
    (now : Nat) (db : List MessageRow) (req : SendRequest)
    (toV msg : String) (hto : req.«to» = some toV) (hto' : toV ≠ "")
    (hmsg : req.message = some msg) (hmsg' : msg ≠ "") :
    (send_sms provider fromNumber now db req).db =
      db ++ [{ id := db.length + 1, sid := some (provider toV msg).sid,
               from_number := some fromNumber, to_number := some toV,
               body := some msg, direction := "outbound",
               status := some (provider toV msg).status, error_code := none,
               timestamp := now }] := by
  simp [send_sms, hto, hmsg, otruthy, hto', hmsg']

/-- Witness for C1 at a concrete request. -/
theorem C1_send_inserts_one_outbound_row_witness :
    (send_sms (fun _ _ => ⟨"SM123", "accepted"⟩) "+15550000000" 7 []
        ⟨some "+15551234567", some "hi"⟩).db =
      [{ id := 1, sid := some "SM123", from_number := some "+15550000000",
         to_number := some "+15551234567", body := some "hi",
         direction := "outbound", status := some "accepted", error_code := none,
         timestamp := 7 }] :=
  C1_send_inserts_one_outbound_row (fun _ _ => ⟨"SM123", "accepted"⟩)
    "+15550000000" 7 [] ⟨some "+15551234567", some "hi"⟩
    "+15551234567" "hi" rfl (by decide) rfl (by decide)

/-- C8: a send request with a missing or empty field gets a 400 with an
error body, inserts nothing, and makes no provider call. -/
theorem C8_invalid_send_rejected
    (provider : String → String → ProviderResult) (fromNumber : String)
    (now : Nat) (db : List MessageRow) (req : SendRequest)
    (h : otruthy req.«to» = false ∨ otruthy req.message = false) :
    (send_sms provider fromNumber now db req).code = 400 ∧
    (send_sms provider fromNumber now db req).respError =
      some "missing 'to' or 'message'" ∧
    (send_sms provider fromNumber now db req).db = db ∧
    (send_sms provider fromNumber now db req).providerCalled = false := by
  rcases h with h | h <;> simp [send_sms, h]

/-- Witness for C8 at a concrete request (empty message). -/
theorem C8_invalid_send_rejected_witness :
    (send_sms (fun _ _ => ⟨"SM123", "accepted"⟩) "+15550000000" 7 []
        ⟨some "+15551234567", some ""⟩).code = 400 ∧
    (send_sms (fun _ _ => ⟨"SM123", "accepted"⟩) "+15550000000" 7 []
        ⟨some "+15551234567", some ""⟩).respError =
      some "missing 'to' or 'message'" ∧
    (send_sms (fun _ _ => ⟨"SM123", "accepted"⟩) "+15550000000" 7 []
        ⟨some "+15551234567", some ""⟩).db = [] ∧
    (send_sms (fun _ _ => ⟨"SM123", "accepted"⟩) "+15550000000" 7 []
        ⟨some "+15551234567", some ""⟩).providerCalled = false :=
  C8_invalid_send_rejected (fun _ _ => ⟨"SM123", "accepted"⟩) "+15550000000" 7 []
    ⟨some "+15551234567", some ""⟩ (Or.inr (by decide))

/-- C10: on every successful send the response's status field is the
constant "queued", whatever status the provider returned, while the stored
row's status is the provider-returned one, so the two can differ. -/
theorem C10_response_status_constant_queued
    (provider : String → String → ProviderResult) (fromNumber : String)
    (now : Nat) (db : List MessageRow) (req : SendRequest)
    (toV msg : String) (hto : req.«to» = some toV) (hto' : toV ≠ "")
    (hmsg : req.message = some msg) (hmsg' : msg ≠ "") :
    (send_sms provider fromNumber now db req).code = 200 ∧
    (send_sms provider fromNumber now db req).respStatus = some "queued" ∧
    ∃ row, (send_sms provider fromNumber now db req).db = db ++ [row] ∧
      row.status = some (provider toV msg).status := by
  refine ⟨?_, ?_, ?_⟩
  · simp [send_sms, hto, hmsg, otruthy, hto', hmsg']
  · simp [send_sms, hto, hmsg, otruthy, hto', hmsg']
  · have hdb : (send_sms provider fromNumber now db req).db =
        db ++ [{ id := db.length + 1, sid := some (provider toV msg).sid,
                 from_number := some fromNumber, to_number := some toV,
                 body := some msg, direction := "outbound",
                 status := some (provider toV msg).status, error_code := none,
                 timestamp := now }] := by
      simp [send_sms, hto, hmsg, otruthy, hto', hmsg']
    exact ⟨_, hdb, rfl⟩

/-- Witness for C10: the provider reports "sent" but the response body
still says "queued". -/
theorem C10_response_status_constant_queued_witness :
    (send_sms (fun _ _ => ⟨"SM9", "sent"⟩) "+15550000000" 7 []
        ⟨some "+15551234567", some "yo"⟩).code = 200 ∧
    (send_sms (fun _ _ => ⟨"SM9", "sent"⟩) "+15550000000" 7 []
        ⟨some "+15551234567", some "yo"⟩).respStatus = some "queued" ∧
    ∃ row, (send_sms (fun _ _ => ⟨"SM9", "sent"⟩) "+15550000000" 7 []
        ⟨some "+15551234567", some "yo"⟩).db = [] ++ [row] ∧
      row.status = some ((fun _ _ => (⟨"SM9", "sent"⟩ : ProviderResult))
        "+15551234567" "yo").status :=
  C10_response_status_constant_queued (fun _ _ => ⟨"SM9", "sent"⟩)
    "+15550000000" 7 [] ⟨some "+15551234567", some "yo"⟩
    "+15551234567" "yo" rfl (by decide) rfl (by decide)

end SendClaims

section ReceiveClaims

/-- C3: every receive-sms request, whatever fields it carries, inserts
exactly one row with direction "inbound", status "received", and null sid,
and is answered by the fixed TwiML acknowledgement with HTTP 200. -/
theorem C3_receive_always_inserts_one_inbound_row
    (now : Nat) (db : List MessageRow) (req : InboundRequest) :
    ∃ f t b, (receive_sms now db req).db =
        db ++ [{ id := db.length + 1, sid := none, from_number := f,
                 to_number := t, body := b, direction := "inbound",
                 status := some "received", error_code := none,
                 timestamp := now }] ∧
      (receive_sms now db req).code = 200 ∧
      (receive_sms now db req).reply = ackReply :=
  ⟨(inboundRow now db req).from_number, (inboundRow now db req).to_number,
   (inboundRow now db req).body, rfl, rfl, rfl⟩

/-- C4 fails as stated: with a parsed nested payload in which "From" is
present (found) but empty, and a flat From field, the flat field is used
even though the field was found in the nested shape. -/
theorem C4_counterexample :
    lookupParam [("From", "")] "From" = some "" ∧
    (receive_sms 0 []
        { payload := some (PayloadParse.parsed [("From", "")]),
          formFrom := some "+15550000000", formTo := none, formBody := none,
          formSmsBody := none }).db.map (fun m => m.from_number) =
      [some "+15550000000"] :=
  ⟨rfl, rfl⟩

/-- C4 as amended: the nested payload is tried first; a nested value is
used when it is found and non-empty, the flat form field is used when the
field is missing from the nested shape or its nested value is empty (for
the body, the nested Body is tried before the nested SmsBody); and when
the payload is absent or fails to parse, the request does not fail and all
fields come from the flat form fields. -/
theorem C4_nested_first_flat_fallback
    (now : Nat) (db : List MessageRow) (req : InboundRequest) :
    ((req.payload = none ∨ req.payload = some PayloadParse.malformed) →
      (inboundRow now db req).from_number = req.formFrom ∧
      (inboundRow now db req).to_number = req.formTo ∧
      (inboundRow now db req).body = req.formBody) ∧
    (∀ ps, req.payload = some (PayloadParse.parsed ps) →
      (∀ v, lookupParam ps "From" = some v → v ≠ "" →
        (inboundRow now db req).from_number = some v) ∧
      ((lookupParam ps "From" = none ∨ lookupParam ps "From" = some "") →
        (inboundRow now db req).from_number = req.formFrom) ∧
      (∀ v, lookupParam ps "To" = some v → v ≠ "" →
        (inboundRow now db req).to_number = some v) ∧
      ((lookupParam ps "To" = none ∨ lookupParam ps "To" = some "") →
        (inboundRow now db req).to_number = req.formTo) ∧
      (∀ v, lookupParam ps "Body" = some v → v ≠ "" →
        (inboundRow now db req).body = some v) ∧
      (∀ v, (lookupParam ps "Body" = none ∨ lookupParam ps "Body" = some "") →
        lookupParam ps "SmsBody" = some v → v ≠ "" →
        (inboundRow now db req).body = some v) ∧
      ((lookupParam ps "Body" = none ∨ lookupParam ps "Body" = some "") →
        (lookupParam ps "SmsBody" = none ∨ lookupParam ps "SmsBody" = some "") →
        (inboundRow now db req).body = req.formBody)) := by
  constructor
  · rintro (hp | hp) <;>
      exact ⟨by simp [inboundRow, nestedFields, hp, otruthy],
             by simp [inboundRow, nestedFields, hp, otruthy],
             by simp [inboundRow, nestedFields, hp, otruthy]⟩
  · intro ps hp
    refine ⟨?_, ?_, ?_, ?_, ?_, ?_, ?_⟩
    · intro v hv hv'
      simp [inboundRow, nestedFields, hp, hv, otruthy, hv']
    · rintro (hv | hv) <;> simp [inboundRow, nestedFields, hp, hv, otruthy]
    · intro v hv hv'
      simp [inboundRow, nestedFields, hp, hv, otruthy, hv']
    · rintro (hv | hv) <;> simp [inboundRow, nestedFields, hp, hv, otruthy]
    · intro v hv hv'
      simp [inboundRow, nestedFields, hp, hv, otruthy, hv', pyOr]
    · rintro v (hb | hb) hv hv' <;>
        simp [inboundRow, nestedFields, hp, hb, hv, otruthy, hv', pyOr]
    · rintro (hb | hb) (hs | hs) <;>
        simp [inboundRow, nestedFields, hp, hb, hs, otruthy, pyOr]

/-- Witness for C4 as amended: a parsed payload with an empty nested To
and a non-empty nested From, plus flat fields. -/
theorem C4_nested_first_flat_fallback_witness :
    (inboundRow 3 []
        { payload := some (PayloadParse.parsed [("From", "+15551110000"), ("To", "")]),
          formFrom := some "+15559990000", formTo := some "+15552220000",
          formBody := some "fallback", formSmsBody := none }).from_number =
      some "+15551110000" ∧
    (inboundRow 3 []
        { payload := some (PayloadParse.parsed [("From", "+15551110000"), ("To", "")]),
          formFrom := some "+15559990000", formTo := some "+15552220000",
          formBody := some "fallback", formSmsBody := none }).to_number =
      some "+15552220000" ∧
    (inboundRow 3 []
        { payload := some (PayloadParse.parsed [("From", "+15551110000"), ("To", "")]),
          formFrom := some "+15559990000", formTo := some "+15552220000",
          formBody := some "fallback", formSmsBody := none }).body =
      some "fallback" := by
  have h := C4_nested_first_flat_fallback 3 []
      { payload := some (PayloadParse.parsed [("From", "+15551110000"), ("To", "")]),
        formFrom := some "+15559990000", formTo := some "+15552220000",
        formBody := some "fallback", formSmsBody := none }
  have h2 := h.2 [("From", "+15551110000"), ("To", "")] rfl
  exact ⟨h2.1 "+15551110000" rfl (by decide),
         h2.2.2.2.1 (Or.inr rfl),
         h2.2.2.2.2.2.2 (Or.inl rfl) (Or.inl rfl)⟩

end ReceiveClaims

section BodyAltClaims

/-- C5 fails as stated: an inbound request carrying the body only under
the flat form field SmsBody (no payload, no Body field) stores a null
body, not that value — the flat fallback reads only Body. -/
theorem C5_counterexample :
    (receive_sms 0 []
        { payload := none, formFrom := some "+15550000001",
          formTo := some "+15550000002", formBody := none,
          formSmsBody := some "hello" }).db.map (fun m => m.body) = [none] :=
  rfl

/-- C5 as amended: the alternate field name SmsBody is honoured only
inside the nested payload — when the parsed parameters carry a non-empty
body only under SmsBody (Body missing or empty), the inserted row's body
is that value; with no payload the body comes from the flat Body field
alone, whatever the flat SmsBody field holds. -/
theorem C5_smsbody_only_in_nested_payload
    (now : Nat) (db : List MessageRow) (req : InboundRequest) :
    (∀ ps v, req.payload = some (PayloadParse.parsed ps) →
      (lookupParam ps "Body" = none ∨ lookupParam ps "Body" = some "") →
      lookupParam ps "SmsBody" = some v → v ≠ "" →
      (inboundRow now db req).body = some v) ∧
    (req.payload = none → (inboundRow now db req).body = req.formBody) := by
  constructor
  · rintro ps v hp (hb | hb) hv hv' <;>
      simp [inboundRow, nestedFields, hp, hb, hv, otruthy, hv', pyOr]
  · intro hp
    simp [inboundRow, nestedFields, hp, otruthy]

/-- Witness for C5 as amended: nested SmsBody only, and a flat request
whose SmsBody is ignored. -/
theorem C5_smsbody_only_in_nested_payload_witness :
    (inboundRow 1 []
        { payload := some (PayloadParse.parsed [("SmsBody", "alt body")]),
          formFrom := none, formTo := none, formBody := none,
          formSmsBody := none }).body = some "alt body" ∧
    (inboundRow 1 []
        { payload := none, formFrom := none, formTo := none,
          formBody := none, formSmsBody := some "ignored" }).body = none :=
  ⟨(C5_smsbody_only_in_nested_payload 1 []
      { payload := some (PayloadParse.parsed [("SmsBody", "alt body")]),
        formFrom := none, formTo := none, formBody := none,
        formSmsBody := none }).1 [("SmsBody", "alt body")] "alt body" rfl
      (Or.inl rfl) rfl (by decide),
   (C5_smsbody_only_in_nested_payload 1 []
      { payload := none, formFrom := none, formTo := none,
        formBody := none, formSmsBody := some "ignored" }).2 rfl⟩

end BodyAltClaims

section StatusClaims

/-- `updateFirst` leaves a list alone when no element's sid matches. -/
theorem updateFirst_no_match (sid status errc : Option String)
    (l : List MessageRow) (h : ∀ m ∈ l, m.sid ≠ sid) :
    updateFirst sid status errc l = l := by
  induction l with
  | nil => rfl
  | cons m rest ih =>
    rw [updateFirst, if_neg (h m (List.mem_cons_self m rest))]
    rw [ih (fun x hx => h x (List.mem_cons_of_mem m hx))]

/-- `updateFirst` rewrites exactly the first matching row. -/
theorem updateFirst_first_match (sid status errc : Option String)
    (pre post : List MessageRow) (m : MessageRow)
    (hpre : ∀ p ∈ pre, p.sid ≠ sid) (hm : m.sid = sid) :
    updateFirst sid status errc (pre ++ m :: post) =
      pre ++ { m with status := status, error_code := errc } :: post := by
  induction pre with
  | nil => simp [updateFirst, hm]
  | cons p rest ih =>
    rw [List.cons_append, updateFirst,
      if_neg (hpre p (List.mem_cons_self p rest)), List.cons_append,
      ih (fun x hx => hpre x (List.mem_cons_of_mem p hx))]

/-- C2 fails as stated: a status callback with no MessageSid (a null
provider_id) matches the first stored row whose sid is NULL — here an
inbound row — and overwrites its status and error_code. -/
theorem C2_counterexample :
    (status_callback
        [{ id := 1, sid := none, from_number := some "+15550000001",
           to_number := some "+15550000002", body := some "hi",
           direction := "inbound", status := some "received",
           error_code := none, timestamp := 0 }]
        { messageSid := none, messageStatus := some "failed",
          errorCode := some "30008" }).1 =
      [{ id := 1, sid := none, from_number := some "+15550000001",
         to_number := some "+15550000002", body := some "hi",
         direction := "inbound", status := some "failed",
         error_code := some "30008", timestamp := 0 }] :=
  rfl

/-- C2 as amended: when the callback's provider_id (null included) equals
no stored row's sid — a null provider_id matching exactly the rows whose
sid is null — no row is modified; and the response is an empty 204
whether or not a row matched. -/
theorem C2_no_match_is_noop_and_always_204
    (db : List MessageRow) (req : StatusRequest) :
    ((∀ m ∈ db, m.sid ≠ req.messageSid) → (status_callback db req).1 = db) ∧
    (status_callback db req).2 = 204 := by
  exact ⟨fun h => updateFirst_no_match req.messageSid req.messageStatus
    req.errorCode db h, rfl⟩

/-- Witness for C2 as amended: a callback sid matching neither stored sid. -/
theorem C2_no_match_is_noop_and_always_204_witness :
    (status_callback
        [{ id := 1, sid := some "SM1", from_number := some "+15550000001",
           to_number := some "+15550000002", body := some "hi",
           direction := "outbound", status := some "sent",
           error_code := none, timestamp := 0 }]
        { messageSid := some "SM2", messageStatus := some "delivered",
          errorCode := none }).1 =
      [{ id := 1, sid := some "SM1", from_number := some "+15550000001",
         to_number := some "+15550000002", body := some "hi",
         direction := "outbound", status := some "sent",
         error_code := none, timestamp := 0 }] ∧
    (status_callback
        [{ id := 1, sid := some "SM1", from_number := some "+15550000001",
           to_number := some "+15550000002", body := some "hi",
           direction := "outbound", status := some "sent",
           error_code := none, timestamp := 0 }]
        { messageSid := some "SM2", messageStatus := some "delivered",
          errorCode := none }).2 = 204 := by
  have h := C2_no_match_is_noop_and_always_204
      [{ id := 1, sid := some "SM1", from_number := some "+15550000001",
         to_number := some "+15550000002", body := some "hi",
         direction := "outbound", status := some "sent",
         error_code := none, timestamp := 0 }]
      { messageSid := some "SM2", messageStatus := some "delivered",
        errorCode := none }
  exact ⟨h.1 (by decide), h.2⟩

/-- C6: a status callback whose provider_id matches a stored row
overwrites the first matching row's status and error_code and leaves
every other row, and every other field of the matched row, unchanged
(the record update touches only status and error_code). -/
theorem C6_update_rewrites_first_match_only
    (req : StatusRequest) (pre post : List MessageRow) (m : MessageRow)
    (hpre : ∀ p ∈ pre, p.sid ≠ req.messageSid) (hm : m.sid = req.messageSid) :
    (status_callback (pre ++ m :: post) req).1 =
      pre ++ { m with status := req.messageStatus,
                      error_code := req.errorCode } :: post ∧
    (status_callback (pre ++ m :: post) req).2 = 204 :=
  ⟨updateFirst_first_match _ _ _ pre post m hpre hm, rfl⟩

/-- Witness for C6: two rows, the callback matching the second; the first
row and the matched row's other fields survive. -/
theorem C6_update_rewrites_first_match_only_witness :
    (status_callback
        [{ id := 1, sid := some "SMa", from_number := some "+15550000001",
           to_number := some "+15550000002", body := some "one",
           direction := "outbound", status := some "sent",
           error_code := none, timestamp := 0 },
         { id := 2, sid := some "SMb", from_number := some "+15550000001",
           to_number := some "+15550000003", body := some "two",
           direction := "outbound", status := some "sent",
           error_code := none, timestamp := 1 }]
        { messageSid := some "SMb", messageStatus := some "delivered",
          errorCode := none }).1 =
      [{ id := 1, sid := some "SMa", from_number := some "+15550000001",
         to_number := some "+15550000002", body := some "one",
         direction := "outbound", status := some "sent",
         error_code := none, timestamp := 0 },
       { id := 2, sid := some "SMb", from_number := some "+15550000001",
         to_number := some "+15550000003", body := some "two",
         direction := "outbound", status := some "delivered",
         error_code := none, timestamp := 1 }] ∧
    (status_callback
        [{ id := 1, sid := some "SMa", from_number := some "+15550000001",
           to_number := some "+15550000002", body := some "one",
           direction := "outbound", status := some "sent",
           error_code := none, timestamp := 0 },
         { id := 2, sid := some "SMb", from_number := some "+15550000001",
           to_number := some "+15550000003", body := some "two",
           direction := "outbound", status := some "sent",
           error_code := none, timestamp := 1 }]
        { messageSid := some "SMb", messageStatus := some "delivered",
          errorCode := none }).2 = 204 :=
  C6_update_rewrites_first_match_only
    { messageSid := some "SMb", messageStatus := some "delivered",
      errorCode := none }
    [{ id := 1, sid := some "SMa", from_number := some "+15550000001",
       to_number := some "+15550000002", body := some "one",
       direction := "outbound", status := some "sent",
       error_code := none, timestamp := 0 }] []
    { id := 2, sid := some "SMb", from_number := some "+15550000001",
      to_number := some "+15550000003", body := some "two",
      direction := "outbound", status := some "sent",
      error_code := none, timestamp := 1 }
    (by decide) rfl

end StatusClaims

section ListClaims

/-- The descending-timestamp comparison is transitive. -/
theorem tsDesc_trans (a b c : MessageRow) :
    tsDesc a b = true → tsDesc b c = true → tsDesc a c = true := by
  simp [tsDesc]
  omega

/-- The descending-timestamp comparison is total. -/
theorem tsDesc_total (a b : MessageRow) : (tsDesc a b || tsDesc b a) = true := by
  simp [tsDesc]
  omega

/-- C7: the messages endpoint returns every stored row, ordered by
non-increasing creation timestamp and serialized with the fixed
"%Y-%m-%d %H:%M:%S" pattern (`serialize` applies `strftimeYmdHMS`), and a
row inserted before the call — its timestamp later than every existing
row's — is the first element of the result. -/
theorem C7_list_newest_first (db : List MessageRow) (x : MessageRow)
    (h : ∀ m ∈ db, m.timestamp < x.timestamp) :
    (∃ rows : List MessageRow, rows.Perm (db ++ [x]) ∧
       rows.Pairwise (fun a b => b.timestamp ≤ a.timestamp) ∧
       (get_all_messages (db ++ [x])).1 = rows.map serialize) ∧
    (get_all_messages (db ++ [x])).1.head? = some (serialize x) ∧
    (get_all_messages (db ++ [x])).2 = 200 := by
  have hperm := List.mergeSort_perm (db ++ [x]) tsDesc
  have hsorted := List.sorted_mergeSort tsDesc_trans tsDesc_total (db ++ [x])
  refine ⟨⟨(db ++ [x]).mergeSort tsDesc, hperm, ?_, rfl⟩, ?_, rfl⟩
  · exact hsorted.imp (fun hb => by simpa [tsDesc] using hb)
  · have hxmem : x ∈ (db ++ [x]).mergeSort tsDesc :=
      hperm.mem_iff.mpr (by simp)
    cases hl : (db ++ [x]).mergeSort tsDesc with
    | nil => rw [hl] at hxmem; simp at hxmem
    | cons hd tl =>
      have hhd : hd ∈ db ++ [x] :=
        hperm.mem_iff.mp (by rw [hl]; exact List.mem_cons_self hd tl)
      by_cases hcase : hd = x
      · simp [get_all_messages, hl, hcase]
      · exfalso
        have hdb : hd ∈ db := by
          rcases List.mem_append.mp hhd with h1 | h1
          · exact h1
          · rw [List.mem_singleton] at h1
            exact absurd h1 hcase
        rw [hl] at hxmem hsorted
        have hx_tl : x ∈ tl := by
          rcases List.mem_cons.mp hxmem with h2 | h2
          · exact absurd h2.symm hcase
          · exact h2
        have h2 := (List.pairwise_cons.mp hsorted).1 x hx_tl
        have h3 := h hd hdb
        simp [tsDesc] at h2
        omega

/-- Witness for C7: one old row with timestamp 0, a new row with
timestamp 5. -/
theorem C7_list_newest_first_witness :
    (∃ rows : List MessageRow, rows.Perm
        ([{ id := 1, sid := some "SM1", from_number := some "+15550000001",
            to_number := some "+15550000002", body := some "old",
            direction := "outbound", status := some "sent",
            error_code := none, timestamp := 0 }] ++
          [{ id := 2, sid := none, from_number := some "+15550000003",
             to_number := some "+15550000001", body := some "new",
             direction := "inbound", status := some "received",
             error_code := none, timestamp := 5 }]) ∧
       rows.Pairwise (fun a b => b.timestamp ≤ a.timestamp) ∧
       (get_all_messages
          ([{ id := 1, sid := some "SM1", from_number := some "+15550000001",
              to_number := some "+15550000002", body := some "old",
              direction := "outbound", status := some "sent",
              error_code := none, timestamp := 0 }] ++
            [{ id := 2, sid := none, from_number := some "+15550000003",
               to_number := some "+15550000001", body := some "new",
               direction := "inbound", status := some "received",
               error_code := none, timestamp := 5 }])).1 =
         rows.map serialize) ∧
    (get_all_messages
        ([{ id := 1, sid := some "SM1", from_number := some "+15550000001",
            to_number := some "+15550000002", body := some "old",
            direction := "outbound", status := some "sent",
            error_code := none, timestamp := 0 }] ++
          [{ id := 2, sid := none, from_number := some "+15550000003",
             to_number := some "+15550000001", body := some "new",
             direction := "inbound", status := some "received",
             error_code := none, timestamp := 5 }])).1.head? =
      some (serialize
        { id := 2, sid := none, from_number := some "+15550000003",
          to_number := some "+15550000001", body := some "new",
          direction := "inbound", status := some "received",
          error_code := none, timestamp := 5 }) ∧
    (get_all_messages
        ([{ id := 1, sid := some "SM1", from_number := some "+15550000001",
            to_number := some "+15550000002", body := some "old",
            direction := "outbound", status := some "sent",
            error_code := none, timestamp := 0 }] ++
          [{ id := 2, sid := none, from_number := some "+15550000003",
             to_number := some "+15550000001", body := some "new",
             direction := "inbound", status := some "received",
             error_code := none, timestamp := 5 }])).2 = 200 :=
  C7_list_newest_first
    [{ id := 1, sid := some "SM1", from_number := some "+15550000001",
       to_number := some "+15550000002", body := some "old",
       direction := "outbound", status := some "sent",
       error_code := none, timestamp := 0 }]
    { id := 2, sid := none, from_number := some "+15550000003",
      to_number := some "+15550000001", body := some "new",
      direction := "inbound", status := some "received",
      error_code := none, timestamp := 5 }
    (by decide)

end ListClaims

section InvariantClaims

/-- One HTTP request to the service, by its effect on the stored table. -/
inductive Op where
  | send (provider : String → String → ProviderResult) (fromNumber : String)
      (now : Nat) (req : SendRequest)
  | receive (now : Nat) (req : InboundRequest)
  | update (req : StatusRequest)
  | list

/-- The database after one request.  `get_all_messages` takes the row list
and returns only a response, so the list branch leaves the table as is. -/
def applyOp (db : List MessageRow) : Op → List MessageRow
  | Op.send p f n r => (send_sms p f n db r).db
  | Op.receive n r => (receive_sms n db r).db
  | Op.update r => (status_callback db r).1
  | Op.list => db

/-- Whether the request is a status callback. -/
def isUpdate : Op → Bool
  | Op.update _ => true
  | _ => false

/-- The creation-time fields of a row: every field except the two that the
status callback may overwrite (status, error_code). -/
structure FrozenPart where
  id : Nat
  sid : Option String
  from_number : Option String
  to_number : Option String
  body : Option String
  direction : String
  timestamp : Nat
deriving Repr, DecidableEq

/-- Project a row onto its creation-time fields. -/
def frozenPart (m : MessageRow) : FrozenPart :=
  ⟨m.id, m.sid, m.from_number, m.to_number, m.body, m.direction, m.timestamp⟩

/-- `updateFirst` preserves every creation-time field of every row. -/
theorem updateFirst_map_frozenPart (sid st ec : Option String)
    (l : List MessageRow) :
    (updateFirst sid st ec l).map frozenPart = l.map frozenPart := by
  induction l with
  | nil => rfl
  | cons m rest ih =>
    rw [updateFirst]
    by_cases hm : m.sid = sid
    · simp [hm, frozenPart]
    · simp [hm, ih]

/-- `updateFirst` preserves the number of rows. -/
theorem updateFirst_length (sid st ec : Option String) (l : List MessageRow) :
    (updateFirst sid st ec l).length = l.length := by
  have h := congrArg List.length (updateFirst_map_frozenPart sid st ec l)
  simpa using h

/-- C9: no request deletes a row; every request preserves every
pre-existing row's creation-time fields (id, sid, from_number, to_number,
body, direction, timestamp) in place; requests other than the status
callback leave pre-existing rows entirely unchanged; and the status
callback inserts nothing. -/
theorem C9_rows_immutable_except_status_fields
    (db : List MessageRow) (op : Op) :
    db.length ≤ (applyOp db op).length ∧
    ((applyOp db op).map frozenPart).take db.length = db.map frozenPart ∧
    (isUpdate op = false → (applyOp db op).take db.length = db) ∧
    (isUpdate op = true → (applyOp db op).length = db.length) := by
  cases op with
  | send p f n r =>
    refine ⟨?_, ?_, fun _ => ?_, fun hu => by simp [isUpdate] at hu⟩ <;>
      · simp only [applyOp, send_sms]
        split
        · simp
        · simp [List.take_left]
  | receive n r =>
    refine ⟨?_, ?_, fun _ => ?_, fun hu => by simp [isUpdate] at hu⟩ <;>
      · simp [applyOp, receive_sms, List.take_left]
  | update r =>
    refine ⟨?_, ?_, fun hu => by simp [isUpdate] at hu, fun _ => ?_⟩
    · simp [applyOp, status_callback, updateFirst_length]
    · simp [applyOp, status_callback, updateFirst_map_frozenPart,
        updateFirst_length, List.take_left]
    · simp [applyOp, status_callback, updateFirst_length]
  | list =>
    refine ⟨Nat.le_refl _, ?_, fun _ => ?_, fun hu => by simp [isUpdate] at hu⟩ <;>
      · simp only [applyOp]
        rw [List.take_of_length_le (by simp)]

/-- Witness for C9: a status callback on a one-row table. -/
theorem C9_rows_immutable_except_status_fields_witness :
    1 ≤ (applyOp
        [{ id := 1, sid := some "SM1", from_number := some "+15550000001",
           to_number := some "+15550000002", body := some "hi",
           direction := "outbound", status := some "sent",
           error_code := none, timestamp := 4 }]
        (Op.update { messageSid := some "SM1",
                     messageStatus := some "delivered",
                     errorCode := none })).length ∧
    ((applyOp
        [{ id := 1, sid := some "SM1", from_number := some "+15550000001",
           to_number := some "+15550000002", body := some "hi",
           direction := "outbound", status := some "sent",
           error_code := none, timestamp := 4 }]
        (Op.update { messageSid := some "SM1",
                     messageStatus := some "delivered",
                     errorCode := none })).map frozenPart).take 1 =
      [{ id := 1, sid := some "SM1", from_number := some "+15550000001",
         to_number := some "+15550000002", body := some "hi",
         direction := "outbound", status := some "sent",
         error_code := none, timestamp := 4 }].map frozenPart ∧
    (applyOp
        [{ id := 1, sid := some "SM1", from_number := some "+15550000001",
           to_number := some "+15550000002", body := some "hi",
           direction := "outbound", status := some "sent",
           error_code := none, timestamp := 4 }]
        (Op.update { messageSid := some "SM1",
                     messageStatus := some "delivered",
                     errorCode := none })).length = 1 := by
  have h := C9_rows_immutable_except_status_fields
      [{ id := 1, sid := some "SM1", from_number := some "+15550000001",
         to_number := some "+15550000002", body := some "hi",
         direction := "outbound", status := some "sent",
         error_code := none, timestamp := 4 }]
      (Op.update { messageSid := some "SM1",
                   messageStatus := some "delivered", errorCode := none })
  exact ⟨h.1, h.2.1, h.2.2.2 rfl⟩

end InvariantClaims
